import Mathlib

/-!
Verification of the event-sourced double-entry ledger core of the
ziyandas-ledger repository against its natural-language specification.

The JavaScript source is shallowly embedded: pure functions become Lean
functions over `ℚ`/`ℝ`; the Supabase-backed write paths become explicit
state passing over a record of table rows, with fallible steps modelled
by explicit failure-injection parameters.  Monetary amounts are `ℚ` where
the source only adds and multiplies, and `ℝ` where the source uses
`Math.pow` (depreciation and interest accrual).
-/

namespace Ledger

/-- An effect record as produced by the archetype catalog and the effect
builders (`effect_type`, `amount`, `effect_sign`).  `effect_sign` is an
`Option` because some call sites (e.g. `addIncome`) omit it, which in the
source reaches the database as NULL and coerces to 0 in arithmetic. -/
structure Effect where
  effect_type : String
  amount : ℚ
  effect_sign : Option ℤ
deriving DecidableEq, Repr

/-- The closed set of archetype `value`s of `ARCHETYPES` in
`src/domain/events/archetypes.js` (groups REVENUE, EXPENSE, ASSETS,
LIABILITIES, EQUITY; the grouping carries no ledger semantics). -/
inductive ArchetypeValue where
  | CASH_SALE
  | CREDIT_SALE
  | REVENUE_REFUND
  | CASH_EXPENSE
  | EXPENSE_ON_CREDIT
  | ASSET_PURCHASED_CASH
  | ASSET_SOLD_WITH_GAIN
  | DEPRECIATION
  | LOAN_RECEIVED
  | LOAN_REPAID
  | OWNER_INVESTMENT
  | OWNER_WITHDRAWAL
deriving DecidableEq, Repr

open ArchetypeValue

/-- `buildEffects` of each catalog entry, transcribed from
`ARCHETYPES.<group>.items[i].buildEffects` in
`src/domain/events/archetypes.js`.  `ASSET_SOLD_WITH_GAIN` uses its
default second argument `bookValue = amount * 0.8`, so `gain =
amount - bookValue = amount * 0.2`.  The `tax_treatment` /
`deductible` fields of the source are metadata with no ledger
semantics and are not modelled. -/
def buildEffects : ArchetypeValue → ℚ → List Effect
  | CASH_SALE, amount =>
      [⟨"CASH", amount, some 1⟩, ⟨"INCOME", amount, some (-1)⟩]
  | CREDIT_SALE, amount =>
      [⟨"ASSET", amount, some 1⟩, ⟨"INCOME", amount, some (-1)⟩]
  | REVENUE_REFUND, amount =>
      [⟨"INCOME", amount, some 1⟩, ⟨"CASH", amount, some (-1)⟩]
  | CASH_EXPENSE, amount =>
      [⟨"EXPENSE", amount, some 1⟩, ⟨"CASH", amount, some (-1)⟩]
  | EXPENSE_ON_CREDIT, amount =>
      [⟨"EXPENSE", amount, some 1⟩, ⟨"LIABILITY", amount, some (-1)⟩]
  | ASSET_PURCHASED_CASH, amount =>
      [⟨"ASSET", amount, some 1⟩, ⟨"CASH", amount, some (-1)⟩]
  | ASSET_SOLD_WITH_GAIN, amount =>
      [⟨"CASH", amount, some 1⟩,
       ⟨"ASSET", amount * (8/10), some (-1)⟩,
       ⟨"INCOME", amount - amount * (8/10), some (-1)⟩]
  | DEPRECIATION, amount =>
      [⟨"EXPENSE", amount, some 1⟩, ⟨"ASSET", amount, some (-1)⟩]
  | LOAN_RECEIVED, amount =>
      [⟨"CASH", amount, some 1⟩, ⟨"LIABILITY", amount, some (-1)⟩]
  | LOAN_REPAID, amount =>
      [⟨"LIABILITY", amount, some 1⟩, ⟨"CASH", amount, some (-1)⟩]
  | OWNER_INVESTMENT, amount =>
      [⟨"CASH", amount, some 1⟩, ⟨"EQUITY", amount, some (-1)⟩]
  | OWNER_WITHDRAWAL, amount =>
      [⟨"EQUITY", amount, some 1⟩, ⟨"CASH", amount, some (-1)⟩]

/-- Signed sum `Σ amount * effect_sign` over a list of effects (a missing
sign contributes 0, matching the NULL coercion of the source). -/
def effectSum (effects : List Effect) : ℚ :=
  effects.foldl (fun s e => s + e.amount * ((e.effect_sign.getD 0 : ℤ) : ℚ)) 0

lemma buildEffects_length_ge_two (arch : ArchetypeValue) (a : ℚ) :
    2 ≤ (buildEffects arch a).length := by
  cases arch <;> simp [buildEffects]

lemma effectSum_buildEffects (arch : ArchetypeValue) (a : ℚ) :
    effectSum (buildEffects arch a) = 0 := by
  cases arch <;> simp [buildEffects, effectSum] <;> ring

/-- C1: for every archetype of the catalog and every amount `a > 0`,
`buildEffects a` returns at least two effects and the sum over the
returned effects of `amount * effect_sign` is zero. -/
theorem archetype_buildEffects_balanced (arch : ArchetypeValue) (a : ℚ)
    (ha : 0 < a) :
    2 ≤ (buildEffects arch a).length ∧ effectSum (buildEffects arch a) = 0 :=
  ⟨buildEffects_length_ge_two arch a, effectSum_buildEffects arch a⟩

/-- C1 witness: the theorem instantiated at `CASH_SALE` with amount 1. -/
theorem archetype_buildEffects_balanced_witness :
    2 ≤ (buildEffects ArchetypeValue.CASH_SALE 1).length ∧
      effectSum (buildEffects ArchetypeValue.CASH_SALE 1) = 0 :=
  archetype_buildEffects_balanced ArchetypeValue.CASH_SALE 1 (by norm_num)

/-! ### Snapshot aggregation (`sumEffectsByType`, `src/services/eventService.js`) -/

/-- One `event_effects` row joined with its parent event's `entity_id` and
`event_date`, as selected by `sumEffectsByType`. -/
structure EffectRow where
  amount : ℚ
  effect_sign : Option ℤ
  effect_type : String
  entity_id : String
  event_date : String
deriving DecidableEq, Repr

/-- The date filter of `sumEffectsByType`: drop the row when
`startDate && date < startDate` or `endDate && date > endDate`. -/
def dateInWindow (startDate endDate : Option String) (d : String) : Bool :=
  (match startDate with | some s => decide (¬ d < s) | none => true) &&
  (match endDate with | some e => decide (¬ e < d) | none => true)

/-- `sumEffectsByType(entityId, effectType, startDate, endDate)` from
`src/services/eventService.js`: select rows of the effect type joined to
events of the entity, filter by the optional date window, and reduce
`Σ amount * effect_sign` starting from 0. -/
def sumEffectsByType (rows : List EffectRow) (entityId effectType : String)
    (startDate endDate : Option String) : ℚ :=
  let queried := rows.filter fun r =>
    r.effect_type == effectType && r.entity_id == entityId
  let filtered := queried.filter fun r =>
    dateInWindow startDate endDate r.event_date
  filtered.foldl (fun s r => s + r.amount * ((r.effect_sign.getD 0 : ℤ) : ℚ)) 0

/-- A snapshot total for one accounting axis: `sumEffectsByType` with no
date window, as the snapshot aggregator uses it. -/
def snapshotTotal (rows : List EffectRow) (entityId axis : String) : ℚ :=
  sumEffectsByType rows entityId axis none none

/-- One recorded catalog event: an archetype plus the user-chosen amount
and event date. -/
structure RecordedEvent where
  arch : ArchetypeValue
  amount : ℚ
  event_date : String

/-- The effect rows persisted for one catalog event of an entity. -/
def archetypeRows (entityId : String) (ev : RecordedEvent) : List EffectRow :=
  (buildEffects ev.arch ev.amount).map fun e =>
    ⟨e.amount, e.effect_sign, e.effect_type, entityId, ev.event_date⟩

/-- The full effect log of an entity whose history consists only of
catalog events. -/
def ledgerRows (entityId : String) (recorded : List RecordedEvent) :
    List EffectRow :=
  (recorded.map (archetypeRows entityId)).flatten

def signedValue (r : EffectRow) : ℚ := r.amount * ((r.effect_sign.getD 0 : ℤ) : ℚ)

lemma foldl_add_signedValue (l : List EffectRow) (s : ℚ) :
    l.foldl (fun acc r => acc + signedValue r) s = s + (l.map signedValue).sum := by
  induction l generalizing s with
  | nil => simp
  | cons x xs ih => simp [ih, add_assoc]

lemma snapshotTotal_eq_sum (rows : List EffectRow) (entityId axis : String) :
    snapshotTotal rows entityId axis =
      ((rows.filter fun r =>
        r.effect_type == axis && r.entity_id == entityId).map signedValue).sum := by
  unfold snapshotTotal sumEffectsByType
  have hwin : ∀ d, dateInWindow none none d = true := by intro d; rfl
  simp only [hwin, List.filter_true]
  have h := foldl_add_signedValue
    (rows.filter fun r => r.effect_type == axis && r.entity_id == entityId) 0
  simpa [signedValue] using h

lemma snapshotTotal_append (xs ys : List EffectRow) (entityId axis : String) :
    snapshotTotal (xs ++ ys) entityId axis =
      snapshotTotal xs entityId axis + snapshotTotal ys entityId axis := by
  simp [snapshotTotal_eq_sum, List.filter_append]

/-- The signed total summed over the six accounting axes. -/
def sixAxisTotal (rows : List EffectRow) (entityId : String) : ℚ :=
  snapshotTotal rows entityId "CASH" + snapshotTotal rows entityId "ASSET" +
  snapshotTotal rows entityId "LIABILITY" + snapshotTotal rows entityId "INCOME" +
  snapshotTotal rows entityId "EXPENSE" + snapshotTotal rows entityId "EQUITY"

lemma sixAxisTotal_append (xs ys : List EffectRow) (entityId : String) :
    sixAxisTotal (xs ++ ys) entityId =
      sixAxisTotal xs entityId + sixAxisTotal ys entityId := by
  simp [sixAxisTotal, snapshotTotal_append]; ring

lemma sixAxisTotal_archetypeRows (entityId : String) (ev : RecordedEvent) :
    sixAxisTotal (archetypeRows entityId ev) entityId = 0 := by
  obtain ⟨arch, a, d⟩ := ev
  cases arch <;>
    simp [sixAxisTotal, snapshotTotal_eq_sum, archetypeRows, buildEffects,
      signedValue] <;> ring

lemma sixAxisTotal_ledgerRows (entityId : String) (recorded : List RecordedEvent) :
    sixAxisTotal (ledgerRows entityId recorded) entityId = 0 := by
  induction recorded with
  | nil => simp [ledgerRows, sixAxisTotal, snapshotTotal_eq_sum]
  | cons ev evs ih =>
      have : ledgerRows entityId (ev :: evs) =
          archetypeRows entityId ev ++ ledgerRows entityId evs := by
        simp [ledgerRows]
      rw [this, sixAxisTotal_append, sixAxisTotal_archetypeRows, ih]
      ring

/-- C2 counterexample: on the ledger holding a single `OWNER_INVESTMENT`
event of amount 100, the claimed identity
`totalAssets = totalLiabilities + totalEquity` over the raw signed sums
fails: the asset side is `+100` while the equity axis sums to `-100`. -/
theorem snapshot_identity_counterexample :
    ¬ (snapshotTotal (ledgerRows "E" [⟨ArchetypeValue.OWNER_INVESTMENT, 100, "2025-01-01"⟩]) "E" "CASH" +
       snapshotTotal (ledgerRows "E" [⟨ArchetypeValue.OWNER_INVESTMENT, 100, "2025-01-01"⟩]) "E" "ASSET" =
       snapshotTotal (ledgerRows "E" [⟨ArchetypeValue.OWNER_INVESTMENT, 100, "2025-01-01"⟩]) "E" "LIABILITY" +
       snapshotTotal (ledgerRows "E" [⟨ArchetypeValue.OWNER_INVESTMENT, 100, "2025-01-01"⟩]) "E" "EQUITY") := by
  simp [snapshotTotal_eq_sum, ledgerRows, archetypeRows, buildEffects, signedValue]
  norm_num

/-- C2 amended: for every ledger state reachable by recording only catalog
events, the raw signed sums balance across all six axes together:
`totalCash + totalAssets + totalLiabilities + totalIncome + totalExpenses
+ totalEquity = 0`; equivalently the asset side equals the negation of the
sum of the other four axes, because liability, equity and income credits
carry sign `-1` in this source. -/
theorem snapshot_six_axis_balance (entityId : String)
    (recorded : List RecordedEvent) :
    snapshotTotal (ledgerRows entityId recorded) entityId "CASH" +
    snapshotTotal (ledgerRows entityId recorded) entityId "ASSET" =
    -(snapshotTotal (ledgerRows entityId recorded) entityId "LIABILITY" +
      snapshotTotal (ledgerRows entityId recorded) entityId "INCOME" +
      snapshotTotal (ledgerRows entityId recorded) entityId "EXPENSE" +
      snapshotTotal (ledgerRows entityId recorded) entityId "EQUITY") := by
  have h := sixAxisTotal_ledgerRows entityId recorded
  unfold sixAxisTotal at h
  linarith

/-! ### Event Recorder (`recordEconomicEvent`, `src/services/eventService.js`)

The repository holds two divergent versions of `recordEconomicEvent`:
the RPC version (first half of `eventService.js`, and the standalone
variant that calls the Postgres function `record_economic_event`), which
validates its input and then performs one atomic write, and the
direct-insert version (second half of `eventService.js`), which inserts
the `economic_events` row and the `event_effects` rows in two separate
non-transactional steps with no arity validation. -/

/-- One element of the `effects[]` argument of `recordEconomicEvent`
(the `effectSign` field is absent at some call sites, e.g. `addIncome`). -/
structure EffectInput where
  effectType : String
  amount : ℚ
  effectSign : Option ℤ
deriving DecidableEq, Repr

/-- The argument object of `recordEconomicEvent`. -/
structure EventInput where
  entityId : Option String
  eventType : String
  eventDate : String
  effects : List EffectInput
deriving DecidableEq, Repr

/-- A persisted `economic_events` row.  `entity_id` is an `Option`
because the direct-insert version performs no entityId validation and
would store NULL. -/
structure EventRow where
  event_id : ℕ
  entity_id : Option String
  event_type : String
  event_date : String
deriving DecidableEq, Repr

/-- A persisted `event_effects` row. -/
structure EffectDbRow where
  event_id : ℕ
  effect_type : String
  amount : ℚ
  effect_sign : Option ℤ
deriving DecidableEq, Repr

/-- The two ledger tables written by the Event Recorder. -/
structure Database where
  events : List EventRow
  event_effects : List EffectDbRow
deriving DecidableEq, Repr

def emptyDb : Database := ⟨[], []⟩

/-- The failure modes surfaced by the recorder versions. -/
inductive RecorderError where
  | entityIdRequired
  | tooFewEffects
  | notAuthenticated
  | persistence
deriving DecidableEq, Repr

/-- The RPC version of `recordEconomicEvent`: check `entityId`, check
`effects.length < 2`, check authentication, then call the
`record_economic_event` Postgres function, which writes the event row
and all effect rows in one transaction.  `userOk` and `rpcOk` inject the
authentication and persistence failures. -/
def recordEconomicEventRpc (db : Database) (newId : ℕ) (userOk rpcOk : Bool)
    (input : EventInput) : Database × Except RecorderError ℕ :=
  match input.entityId with
  | none => (db, .error .entityIdRequired)
  | some ent =>
      if input.effects.length < 2 then (db, .error .tooFewEffects)
      else if !userOk then (db, .error .notAuthenticated)
      else if !rpcOk then (db, .error .persistence)
      else
        (⟨db.events ++ [⟨newId, some ent, input.eventType, input.eventDate⟩],
          db.event_effects ++ input.effects.map fun e =>
            ⟨newId, e.effectType, e.amount, e.effectSign⟩⟩,
         .ok newId)

/-- Failure injection points for the direct-insert version: the
`economic_events` insert or the `event_effects` insert may error. -/
inductive InsertOutcome where
  | ok
  | failEventInsert
  | failEffectsInsert
deriving DecidableEq, Repr

/-- The direct-insert version of `recordEconomicEvent`: no input
validation; insert the event row, then (when `effects` is non-empty)
insert the effect rows in a second call.  An error in the second call is
thrown and caught, but the already-written event row is not rolled
back.  Returns the new database and the `success` flag of the result
object. -/
def recordEconomicEventDirect (db : Database) (newId : ℕ) (userOk : Bool)
    (outcome : InsertOutcome) (input : EventInput) : Database × Bool :=
  if !userOk then (db, false)
  else
    match outcome with
    | .failEventInsert => (db, false)
    | .failEffectsInsert =>
        if input.effects.length > 0 then
          (⟨db.events ++ [⟨newId, input.entityId, input.eventType, input.eventDate⟩],
            db.event_effects⟩, false)
        else
          (⟨db.events ++ [⟨newId, input.entityId, input.eventType, input.eventDate⟩],
            db.event_effects⟩, true)
    | .ok =>
        (⟨db.events ++ [⟨newId, input.entityId, input.eventType, input.eventDate⟩],
          db.event_effects ++ input.effects.map fun e =>
            ⟨newId, e.effectType, e.amount, e.effectSign⟩⟩, true)

/-- A concrete two-effect input used by the counterexamples. -/
def sampleTwoEffectInput : EventInput :=
  ⟨some "E", "REVENUE_EARNED", "2025-01-01",
    [⟨"CASH", 5, some 1⟩, ⟨"INCOME", 5, some (-1)⟩]⟩

/-- C3 counterexample: the direct-insert `recordEconomicEvent`, with a
failure injected after the event insert and before the effects insert,
reports failure yet leaves the event row behind with zero effect rows —
recording is not atomic for every call. -/
theorem recordEconomicEvent_not_atomic_counterexample :
    (recordEconomicEventDirect emptyDb 1 true .failEffectsInsert
       sampleTwoEffectInput).2 = false ∧
    (recordEconomicEventDirect emptyDb 1 true .failEffectsInsert
       sampleTwoEffectInput).1.events =
      [⟨1, some "E", "REVENUE_EARNED", "2025-01-01"⟩] ∧
    (recordEconomicEventDirect emptyDb 1 true .failEffectsInsert
       sampleTwoEffectInput).1.event_effects = [] := by
  refine ⟨rfl, rfl, rfl⟩

/-- C3 amended: the RPC version of `recordEconomicEvent` is atomic —
every call either fails leaving the database unchanged, or succeeds
appending the event row together with all of its effect rows in one
step; the direct-insert version violates the claim (see the
counterexample). -/
theorem recordEconomicEventRpc_atomic (db : Database) (newId : ℕ)
    (userOk rpcOk : Bool) (input : EventInput) :
    ((∃ e, (recordEconomicEventRpc db newId userOk rpcOk input).2 =
        .error e) ∧
      (recordEconomicEventRpc db newId userOk rpcOk input).1 = db) ∨
    ((recordEconomicEventRpc db newId userOk rpcOk input).2 = .ok newId ∧
      ∃ ent, input.entityId = some ent ∧
        (recordEconomicEventRpc db newId userOk rpcOk input).1 =
          ⟨db.events ++ [⟨newId, some ent, input.eventType, input.eventDate⟩],
           db.event_effects ++ input.effects.map fun e =>
             ⟨newId, e.effectType, e.amount, e.effectSign⟩⟩) := by
  unfold recordEconomicEventRpc
  rcases h : input.entityId with _ | ent
  · simp
  · by_cases hlen : input.effects.length < 2
    · simp [hlen]
    · cases userOk <;> cases rpcOk <;> simp [hlen]

/-- C4 counterexample: the direct-insert `recordEconomicEvent` accepts an
effects array with a single element — it reports success and persists
the event row together with the lone effect row instead of failing with
a validation error before any write. -/
theorem recordEconomicEvent_single_effect_counterexample :
    (recordEconomicEventDirect emptyDb 1 true .ok
       ⟨some "E", "ASSET_ACQUIRED", "2025-01-01",
         [⟨"ASSET_INCREASE", 5, none⟩]⟩).2 = true ∧
    (recordEconomicEventDirect emptyDb 1 true .ok
       ⟨some "E", "ASSET_ACQUIRED", "2025-01-01",
         [⟨"ASSET_INCREASE", 5, none⟩]⟩).1.events ≠ [] ∧
    (recordEconomicEventDirect emptyDb 1 true .ok
       ⟨some "E", "ASSET_ACQUIRED", "2025-01-01",
         [⟨"ASSET_INCREASE", 5, none⟩]⟩).1.event_effects ≠ [] := by
  refine ⟨rfl, by decide, by decide⟩

/-- C4 amended: the RPC versions of `recordEconomicEvent` reject an
effects array with fewer than two elements with the validation error
`At least two effects are required`, before any write is attempted, so
the database is unchanged; the direct-insert version performs no such
validation (see the counterexample). -/
theorem recordEconomicEventRpc_rejects_few_effects (db : Database)
    (newId : ℕ) (userOk rpcOk : Bool) (input : EventInput) (ent : String)
    (hent : input.entityId = some ent)
    (hlen : input.effects.length < 2) :
    recordEconomicEventRpc db newId userOk rpcOk input =
      (db, .error .tooFewEffects) := by
  unfold recordEconomicEventRpc
  rw [hent]
  simp [hlen]

/-- C4 witness: the rejection theorem applied to a one-effect call. -/
theorem recordEconomicEventRpc_rejects_few_effects_witness :
    recordEconomicEventRpc emptyDb 1 true true
        ⟨some "E", "ASSET_ACQUIRED", "2025-01-01",
          [⟨"ASSET_INCREASE", 5, none⟩]⟩ =
      (emptyDb, .error .tooFewEffects) :=
  recordEconomicEventRpc_rejects_few_effects emptyDb 1 true true
    ⟨some "E", "ASSET_ACQUIRED", "2025-01-01", [⟨"ASSET_INCREASE", 5, none⟩]⟩
    "E" rfl (by decide)

/-! ### Income recording (`addIncome`, `src/services/incomeService.js`) -/

/-- `addIncome` from `src/services/incomeService.js`: after the
authentication, required-field and positivity checks it calls
`recordEconomicEvent` (the direct-insert version — `addIncome` consumes
its `data.effects` return shape) with event type `REVENUE_EARNED` and
two effects typed `INCOME_RECOGNIZED` and `CASH_INCREASE`, both of
amount `amountNet` and with no `effectSign` field.  The
`income_recognitions` satellite insert that follows is not modelled; no
claim depends on it.  The JS falsiness test `!amountNet` makes amount 0
a missing-field failure. -/
def addIncome (db : Database) (newId : ℕ) (userOk : Bool)
    (outcome : InsertOutcome) (entityId : Option String)
    (dateReceived : Option String) (amountNet : ℚ)
    (incomeClass : Option String) : Database × Bool :=
  if !userOk then (db, false)
  else if entityId.isNone ∨ dateReceived.isNone ∨ amountNet = 0 ∨
      incomeClass.isNone then (db, false)
  else if amountNet ≤ 0 then (db, false)
  else
    recordEconomicEventDirect db newId userOk outcome
      ⟨entityId, "REVENUE_EARNED", dateReceived.getD "",
       [⟨"INCOME_RECOGNIZED", amountNet, none⟩,
        ⟨"CASH_INCREASE", amountNet, none⟩]⟩

/-- The inner join `event_effects ⋈ economic_events (entity_id,
event_date)` that `sumEffectsByType` selects; rows whose parent event is
missing or has a NULL entity drop out of the join. -/
def joinRows (db : Database) : List EffectRow :=
  db.event_effects.filterMap fun eff =>
    match db.events.find? (fun ev => ev.event_id == eff.event_id) with
    | some ev =>
        match ev.entity_id with
        | some ent =>
            some ⟨eff.amount, eff.effect_sign, eff.effect_type, ent,
              ev.event_date⟩
        | none => none
    | none => none

/-- C5: evaluating the code at Scenario A's input.  A successful
`addIncome` with `amountNet = 5000` on a fresh entity records one
`REVENUE_EARNED` event, but its two effects carry the types
`INCOME_RECOGNIZED` and `CASH_INCREASE` (outside the documented
CASH/ASSET/LIABILITY/INCOME/EXPENSE/EQUITY vocabulary) and no
`effect_sign`, so the snapshot sums over the `INCOME` and `CASH` axes
report 0, not 5000, diverging from the claim. -/
theorem addIncome_scenarioA_divergence :
    (addIncome emptyDb 1 true .ok (some "E") (some "2025-02-07") 5000
       (some "SALARY")).2 = true ∧
    ((addIncome emptyDb 1 true .ok (some "E") (some "2025-02-07") 5000
       (some "SALARY")).1.events.map EventRow.event_type) =
      ["REVENUE_EARNED"] ∧
    ((addIncome emptyDb 1 true .ok (some "E") (some "2025-02-07") 5000
       (some "SALARY")).1.event_effects.map EffectDbRow.effect_type) =
      ["INCOME_RECOGNIZED", "CASH_INCREASE"] ∧
    sumEffectsByType
      (joinRows (addIncome emptyDb 1 true .ok (some "E")
        (some "2025-02-07") 5000 (some "SALARY")).1) "E" "INCOME"
      none none = 0 ∧
    sumEffectsByType
      (joinRows (addIncome emptyDb 1 true .ok (some "E")
        (some "2025-02-07") 5000 (some "SALARY")).1) "E" "CASH"
      none none = 0 := by
  decide

/-! ### Effect builders (`src/domain/events/effectBuilders.js`) -/

/-- `cashIncrease` from `effectBuilders.js`. -/
def cashIncrease (amount : ℚ) : Effect := ⟨"CASH", amount, some 1⟩

/-- `cashDecrease` from `effectBuilders.js`. -/
def cashDecrease (amount : ℚ) : Effect := ⟨"CASH", amount, some (-1)⟩

/-- `assetIncrease` from `effectBuilders.js`. -/
def assetIncrease (amount : ℚ) : Effect := ⟨"ASSET", amount, some 1⟩

/-- `assetDecrease` from `effectBuilders.js`. -/
def assetDecrease (amount : ℚ) : Effect := ⟨"ASSET", amount, some (-1)⟩

/-- `liabilityIncrease` from `effectBuilders.js` (note the source gives
the increase sign `-1` here). -/
def liabilityIncrease (amount : ℚ) : Effect := ⟨"LIABILITY", amount, some (-1)⟩

/-- `liabilityDecrease` from `effectBuilders.js`. -/
def liabilityDecrease (amount : ℚ) : Effect := ⟨"LIABILITY", amount, some 1⟩

/-- `incomeRecognized` from `effectBuilders.js`. -/
def incomeRecognized (amount : ℚ) : Effect := ⟨"INCOME", amount, some (-1)⟩

/-- `expenseRecognized` from `effectBuilders.js`. -/
def expenseRecognized (amount : ℚ) : Effect := ⟨"EXPENSE", amount, some 1⟩

/-- C9 counterexample: the increase-type builders perform no validation —
at the negative amount `-5` (and at zero) each returns an ordinary
effect record instead of rejecting the input. -/
theorem effectBuilders_accept_nonpositive_counterexample :
    cashIncrease (-5) = ⟨"CASH", -5, some 1⟩ ∧
    assetIncrease (-5) = ⟨"ASSET", -5, some 1⟩ ∧
    liabilityIncrease (-5) = ⟨"LIABILITY", -5, some (-1)⟩ ∧
    incomeRecognized (-5) = ⟨"INCOME", -5, some (-1)⟩ ∧
    cashIncrease 0 = ⟨"CASH", 0, some 1⟩ :=
  ⟨rfl, rfl, rfl, rfl, rfl⟩

/-- C9 amended: the increase-type builders are deterministic, side-effect
free constructors that accept every rational amount unchecked and attach
the fixed per-helper sign (`+1` for `cashIncrease`/`assetIncrease`, `-1`
for `liabilityIncrease`/`incomeRecognized`). -/
theorem effectBuilders_fixed_sign (a : ℚ) :
    cashIncrease a = ⟨"CASH", a, some 1⟩ ∧
    assetIncrease a = ⟨"ASSET", a, some 1⟩ ∧
    liabilityIncrease a = ⟨"LIABILITY", a, some (-1)⟩ ∧
    incomeRecognized a = ⟨"INCOME", a, some (-1)⟩ :=
  ⟨rfl, rfl, rfl, rfl⟩

/-! ### Depreciation engine (`src/services/assetService.js`)

Dates are modelled as linear calendar-month indices (`year * 12 +
month`), under which the source's
`(today.getFullYear() - acquired.getFullYear()) * 12 +
(today.getMonth() - acquired.getMonth())` is exactly the difference of
indices.  Monetary values are `ℝ` because `DIMINISHING_BALANCE` uses
`Math.pow` with a fractional exponent. -/

/-- The fields of an `assets` row used by `calculateDepreciation`;
`acquisition_month` is the month index of `acquisition_date`. -/
structure Asset where
  initial_value : ℝ
  useful_life_months : Option ℕ
  depreciation_method : String
  acquisition_month : ℤ

/-- `calculateMonthsUsed` from `assetService.js`:
`max(0, monthsBetween(acquisitionDate, asOf))` on month indices. -/
def calculateMonthsUsed (acquisitionMonth asOfMonth : ℤ) : ℕ :=
  (asOfMonth - acquisitionMonth).toNat

/-- `calculateDepreciation` from `assetService.js`: 0 for a missing or
zero useful life; `(initialValue / usefulLifeMonths) * monthsUsed` for
STRAIGHT_LINE (no cap); `initialValue * (1 - 0.8 ^ (monthsUsed / 12))`
for DIMINISHING_BALANCE; 0 for UNITS_OF_PRODUCTION and anything else. -/
noncomputable def calculateDepreciation (asset : Asset) (asOfMonth : ℤ) : ℝ :=
  match asset.useful_life_months with
  | none => 0
  | some l =>
      if l = 0 then 0
      else
        let monthsUsed : ℕ := calculateMonthsUsed asset.acquisition_month asOfMonth
        if asset.depreciation_method = "STRAIGHT_LINE" then
          (asset.initial_value / l) * monthsUsed
        else if asset.depreciation_method = "DIMINISHING_BALANCE" then
          asset.initial_value * (1 - (1 - 0.20 : ℝ) ^ ((monthsUsed : ℝ) / 12))
        else 0

/-- `bookValue = asset.initial_value - accumulated` as computed in
`getAssetsByEntity`. -/
noncomputable def bookValue (asset : Asset) (asOfMonth : ℤ) : ℝ :=
  asset.initial_value - calculateDepreciation asset asOfMonth

/-- C6 counterexample: straight-line depreciation is NOT capped at the
initial value — an asset of initial value 1200 with a 12-month useful
life shows accumulated depreciation 2400 after 24 months (the claimed
capped value is 1200), so the book value is already negative. -/
theorem straight_line_uncapped_counterexample :
    calculateDepreciation ⟨1200, some 12, "STRAIGHT_LINE", 0⟩ 24 = 2400 ∧
    calculateDepreciation ⟨1200, some 12, "STRAIGHT_LINE", 0⟩ 24 ≠
      min ((1200 / 12) * 24 : ℝ) 1200 ∧
    bookValue ⟨1200, some 12, "STRAIGHT_LINE", 0⟩ 24 = -1200 := by
  have h : calculateDepreciation ⟨1200, some 12, "STRAIGHT_LINE", 0⟩ 24 = 2400 := by
    simp [calculateDepreciation, calculateMonthsUsed]
    norm_num
  refine ⟨h, ?_, ?_⟩
  · rw [h]; norm_num
  · rw [bookValue, h]; norm_num

/-- C6 amended: for STRAIGHT_LINE with a positive useful life,
accumulated depreciation is `(initialValue / usefulLifeMonths) *
monthsElapsed` with NO cap at the initial value, and `bookValue =
initialValue - accumulated`; Scenario B's values (1200 over 12 months,
4 months elapsed, accumulated 400 and book value 800) hold. -/
theorem straight_line_formula (v : ℝ) (l : ℕ) (acq asOf : ℤ)
    (hl : 0 < l) :
    calculateDepreciation ⟨v, some l, "STRAIGHT_LINE", acq⟩ asOf =
      (v / l) * (calculateMonthsUsed acq asOf : ℝ) ∧
    bookValue ⟨v, some l, "STRAIGHT_LINE", acq⟩ asOf =
      v - (v / l) * (calculateMonthsUsed acq asOf : ℝ) := by
  have hne : l ≠ 0 := Nat.pos_iff_ne_zero.mp hl
  constructor
  · simp [calculateDepreciation, hne]
  · simp [bookValue, calculateDepreciation, hne]

/-- C6 witness: the formula at Scenario B's input — initial value 1200,
useful life 12 months, 4 months elapsed — gives accumulated 400 and
book value 800. -/
theorem straight_line_formula_witness :
    calculateDepreciation ⟨1200, some 12, "STRAIGHT_LINE", 0⟩ 4 = 400 ∧
    bookValue ⟨1200, some 12, "STRAIGHT_LINE", 0⟩ 4 = 800 := by
  obtain ⟨h1, h2⟩ := straight_line_formula 1200 12 0 4 (by norm_num)
  have hm : calculateMonthsUsed 0 4 = 4 := rfl
  constructor
  · rw [h1, hm]; norm_num
  · rw [h2, hm]; norm_num

lemma calculateMonthsUsed_mono (acq : ℤ) {t1 t2 : ℤ} (h : t1 ≤ t2) :
    calculateMonthsUsed acq t1 ≤ calculateMonthsUsed acq t2 :=
  Int.toNat_le_toNat (by omega)

lemma calculateDepreciation_mono (asset : Asset)
    (hv : 0 ≤ asset.initial_value) {t1 t2 : ℤ} (h : t1 ≤ t2) :
    calculateDepreciation asset t1 ≤ calculateDepreciation asset t2 := by
  obtain ⟨v, lm, meth, acq⟩ := asset
  unfold calculateDepreciation
  cases lm with
  | none => simp
  | some l =>
      by_cases hl : l = 0
      · simp [hl]
      · simp only [hl, if_false]
        have hm : (calculateMonthsUsed acq t1 : ℝ) ≤
            (calculateMonthsUsed acq t2 : ℝ) := by
          exact_mod_cast calculateMonthsUsed_mono acq h
        by_cases hsl : meth = "STRAIGHT_LINE"
        · simp only [hsl, if_true]
          have hvl : 0 ≤ (v / l : ℝ) := by positivity
          exact mul_le_mul_of_nonneg_left hm hvl
        · by_cases hdb : meth = "DIMINISHING_BALANCE"
          · simp only [hsl, hdb, if_false, if_true]
            have hpow : (1 - 0.20 : ℝ) ^ ((calculateMonthsUsed acq t2 : ℝ) / 12) ≤
                (1 - 0.20 : ℝ) ^ ((calculateMonthsUsed acq t1 : ℝ) / 12) := by
              apply Real.rpow_le_rpow_of_exponent_ge (by norm_num) (by norm_num)
              linarith
            have : (1 - (1 - 0.20 : ℝ) ^ ((calculateMonthsUsed acq t1 : ℝ) / 12)) ≤
                (1 - (1 - 0.20 : ℝ) ^ ((calculateMonthsUsed acq t2 : ℝ) / 12)) := by
              linarith
            exact mul_le_mul_of_nonneg_left this hv
          · simp [hsl, hdb]

/-- C7: for STRAIGHT_LINE and DIMINISHING_BALANCE assets with
non-negative initial value (`addAsset` enforces a positive one), the
book value is monotonically non-increasing in the as-of month:
`t1 < t2` implies `bookValue(asset, t1) ≥ bookValue(asset, t2)`. -/
theorem bookValue_antitone (asset : Asset) (t1 t2 : ℤ)
    (hmeth : asset.depreciation_method = "STRAIGHT_LINE" ∨
      asset.depreciation_method = "DIMINISHING_BALANCE")
    (hv : 0 ≤ asset.initial_value) (h : t1 < t2) :
    bookValue asset t2 ≤ bookValue asset t1 := by
  have := calculateDepreciation_mono asset hv (le_of_lt h)
  unfold bookValue
  linarith

/-- C7 witness: the monotonicity theorem applied to a concrete
DIMINISHING_BALANCE asset between months 1 and 2. -/
theorem bookValue_antitone_witness :
    bookValue ⟨1000, some 60, "DIMINISHING_BALANCE", 0⟩ 2 ≤
      bookValue ⟨1000, some 60, "DIMINISHING_BALANCE", 0⟩ 1 :=
  bookValue_antitone ⟨1000, some 60, "DIMINISHING_BALANCE", 0⟩ 1 2
    (Or.inr rfl) (by norm_num) (by norm_num)

/-! ### Interest accrual and liability settlement
(`src/services/liabilityService.js`)

Dates are modelled as real day numbers; the source converts a
millisecond difference to days and divides by 365.25. -/

/-- The fields of a `liabilities` row used by interest accrual. -/
structure Liability where
  principal_amount : ℝ
  interest_rate : ℝ
  created_day : ℝ

/-- `calculateYearsSince`: `|asOf - created| / 365.25` in days. -/
noncomputable def calculateYearsSince (createdDay asOfDay : ℝ) : ℝ :=
  |asOfDay - createdDay| / 365.25

/-- `calculateInterest` from `liabilityService.js`: 0 when the rate is
absent or 0; otherwise compound accrual `P * (1+r)^years - P`.  (The
source also computes a simple-interest value but always returns the
compound one.) -/
noncomputable def calculateInterest (liab : Liability) (asOfDay : ℝ) : ℝ :=
  if liab.interest_rate = 0 then 0
  else
    liab.principal_amount *
      (1 + liab.interest_rate) ^ calculateYearsSince liab.created_day asOfDay -
      liab.principal_amount

/-- The current balance `principal + calculateInterest` as computed in
`getLiabilitiesByEntity` and `recordLiabilityPayment`. -/
noncomputable def liabilityBalance (liab : Liability) (asOfDay : ℝ) : ℝ :=
  liab.principal_amount + calculateInterest liab asOfDay

/-- The outcome object of `recordLiabilityPayment`. -/
structure PaymentOutcome where
  success : Bool
  remainingBalance : ℝ
  extinguished : Bool

/-- `recordLiabilityPayment` from `liabilityService.js`:
`remaining = max(0, balance - paymentAmount)`; the `LIABILITY_SETTLED`
event is recorded (failure injected by `recordOk`), and in the same
logical operation the `extinguished_event_id` pointer is set exactly
when `remaining === 0`.  On a recording failure nothing is reported and
the pointer is not set. -/
noncomputable def recordLiabilityPayment (liab : Liability)
    (paymentAmount asOfDay : ℝ) (recordOk : Bool) : PaymentOutcome :=
  let remaining := max 0 (liabilityBalance liab asOfDay - paymentAmount)
  if !recordOk then ⟨false, 0, false⟩
  else if remaining = 0 then ⟨true, remaining, true⟩
  else ⟨true, remaining, false⟩

lemma liabilityBalance_eq_compound (liab : Liability) (asOfDay : ℝ) :
    liabilityBalance liab asOfDay =
      liab.principal_amount *
        (1 + liab.interest_rate) ^ calculateYearsSince liab.created_day asOfDay := by
  unfold liabilityBalance calculateInterest
  by_cases hr : liab.interest_rate = 0
  · simp [hr, Real.one_rpow]
  · simp [hr]

/-- C8: the current balance of a liability is
`principal * (1 + rate) ^ (days / 365.25)` (compound accrual, also when
the rate is 0), and a successful `recordLiabilityPayment` reports
`remainingBalance = max(0, balance - payment)` and sets the
extinguished pointer exactly when that remaining balance is 0. -/
theorem recordLiabilityPayment_spec (liab : Liability)
    (paymentAmount asOfDay : ℝ) (recordOk : Bool)
    (hok : recordOk = true) :
    liabilityBalance liab asOfDay =
      liab.principal_amount *
        (1 + liab.interest_rate) ^ calculateYearsSince liab.created_day asOfDay ∧
    (recordLiabilityPayment liab paymentAmount asOfDay recordOk).remainingBalance =
      max 0 (liabilityBalance liab asOfDay - paymentAmount) ∧
    ((recordLiabilityPayment liab paymentAmount asOfDay recordOk).extinguished =
        true ↔
      max 0 (liabilityBalance liab asOfDay - paymentAmount) = 0) := by
  subst hok
  refine ⟨liabilityBalance_eq_compound liab asOfDay, ?_, ?_⟩
  · unfold recordLiabilityPayment
    by_cases h : max 0 (liabilityBalance liab asOfDay - paymentAmount) = 0 <;>
      simp [h]
  · unfold recordLiabilityPayment
    by_cases h : max 0 (liabilityBalance liab asOfDay - paymentAmount) = 0 <;>
      simp [h]

/-- C8 witness: Scenario C — principal 1000 at compound rate 0.08 for
365.25 days (one year) has balance 1080; paying 1080 leaves remaining
balance 0 and extinguishes the liability. -/
theorem recordLiabilityPayment_spec_witness :
    (recordLiabilityPayment ⟨1000, 0.08, 0⟩ 1080 365.25 true).remainingBalance =
      0 ∧
    (recordLiabilityPayment ⟨1000, 0.08, 0⟩ 1080 365.25 true).extinguished =
      true := by
  obtain ⟨hbal, hrem, hext⟩ :=
    recordLiabilityPayment_spec ⟨1000, 0.08, 0⟩ 1080 365.25 true rfl
  have hyears : calculateYearsSince (0 : ℝ) 365.25 = 1 := by
    unfold calculateYearsSince
    rw [sub_zero, abs_of_nonneg (by norm_num)]
    norm_num
  have hb : liabilityBalance ⟨1000, 0.08, 0⟩ 365.25 = 1080 := by
    rw [hbal]
    show (1000 : ℝ) * (1 + 0.08) ^ calculateYearsSince (0 : ℝ) 365.25 = 1080
    rw [hyears, Real.rpow_one]
    norm_num
  have hmax : max 0 (liabilityBalance ⟨1000, 0.08, 0⟩ 365.25 - 1080) = 0 := by
    rw [hb]; norm_num
  exact ⟨by rw [hrem, hmax], hext.mpr hmax⟩

/-! ### Balance sheet (`getBalanceSheet`, `analyticsService.js`) -/

/-- The columns of an `assets` row selected by `getBalanceSheet`. -/
structure AssetSheetRow where
  asset_type : String
  initial_value : ℚ
deriving DecidableEq, Repr

/-- The columns of a `liabilities` row selected by `getBalanceSheet`. -/
structure LiabilitySheetRow where
  liability_type : String
  principal_amount : ℚ
deriving DecidableEq, Repr

/-- The accumulation `byType[key] = (byType[key] || 0) + value` on a JS
object, modelled as an association list in first-seen key order. -/
def addToGroup (groups : List (String × ℚ)) (key : String) (value : ℚ) :
    List (String × ℚ) :=
  match groups with
  | [] => [(key, value)]
  | (k, v) :: rest =>
      if k = key then (k, v + value) :: rest
      else (k, v) :: addToGroup rest key value

/-- The result object of `getBalanceSheet`. -/
structure BalanceSheet where
  success : Bool
  assets : List (String × ℚ)
  liabilities : List (String × ℚ)
  totalAssets : ℚ
  totalLiabilities : ℚ
  equity : ℚ
deriving DecidableEq, Repr

/-- `getBalanceSheet` from `analyticsService.js`: a missing entityId
throws into the catch block, which still returns `success: true` with
the all-zero sheet.  Each of the two queries is checked independently
and inline — an erroring query contributes nothing to its side while the
other side is still aggregated — and the success path always returns
`success: true` with `equity = totalAssets - totalLiabilities`. -/
def getBalanceSheet (entityIdPresent : Bool)
    (assetsQuery : Except String (List AssetSheetRow))
    (liabilitiesQuery : Except String (List LiabilitySheetRow)) :
    BalanceSheet :=
  if !entityIdPresent then ⟨true, [], [], 0, 0, 0⟩
  else
    let assetPart : List (String × ℚ) × ℚ :=
      match assetsQuery with
      | .ok rows =>
          rows.foldl
            (fun acc a =>
              (addToGroup acc.1 a.asset_type a.initial_value,
               acc.2 + a.initial_value))
            ([], 0)
      | .error _ => ([], 0)
    let liabPart : List (String × ℚ) × ℚ :=
      match liabilitiesQuery with
      | .ok rows =>
          rows.foldl
            (fun acc l =>
              (addToGroup acc.1 l.liability_type l.principal_amount,
               acc.2 + l.principal_amount))
            ([], 0)
      | .error _ => ([], 0)
    ⟨true, assetPart.1, liabPart.1, assetPart.2, liabPart.2,
     assetPart.2 - liabPart.2⟩

/-- C10 counterexample: when only the asset query errors while the
liability query returns a LOAN of 100, `getBalanceSheet` still succeeds
but reports `totalLiabilities = 100` and `equity = -100` — not the
all-zero sheet the claim promises for the error case, and
distinguishable from an entity with no records. -/
theorem getBalanceSheet_partial_error_counterexample :
    getBalanceSheet true (.error "relation does not exist")
        (.ok [⟨"LOAN", 100⟩]) =
      ⟨true, [], [("LOAN", 100)], 0, 100, -100⟩ ∧
    (getBalanceSheet true (.error "relation does not exist")
        (.ok [⟨"LOAN", 100⟩])).totalLiabilities ≠ 0 := by
  constructor
  · simp [getBalanceSheet, addToGroup]
  · simp [getBalanceSheet, addToGroup]

/-- C10 amended: `getBalanceSheet` never reports failure —
`success = true` on every input — and when both underlying queries
error (or the call throws on a missing entityId) the result is the
all-zero balance sheet; but a single failing query only zeroes its own
side, so the result is then not all-zero whenever the other side has
records. -/
theorem getBalanceSheet_never_fails (entityIdPresent : Bool)
    (assetsQuery : Except String (List AssetSheetRow))
    (liabilitiesQuery : Except String (List LiabilitySheetRow)) :
    (getBalanceSheet entityIdPresent assetsQuery liabilitiesQuery).success =
      true ∧
    (∀ ea el, assetsQuery = .error ea → liabilitiesQuery = .error el →
      getBalanceSheet entityIdPresent assetsQuery liabilitiesQuery =
        ⟨true, [], [], 0, 0, 0⟩) := by
  constructor
  · cases entityIdPresent <;> cases assetsQuery <;> cases liabilitiesQuery <;>
      rfl
  · intro ea el ha hl
    subst ha; subst hl
    cases entityIdPresent <;> simp [getBalanceSheet]

/-- C10 witness: the theorem at concrete inputs — with both queries
erroring the returned sheet is the all-zero one, with success true. -/
theorem getBalanceSheet_never_fails_witness :
    (getBalanceSheet true (.error "a") (.error "l")).success = true ∧
    getBalanceSheet true (.error "a") (.error "l") =
      ⟨true, [], [], 0, 0, 0⟩ := by
  obtain ⟨hs, hz⟩ := getBalanceSheet_never_fails true
    (.error "a") (.error "l")
  exact ⟨hs, hz "a" "l" rfl rfl⟩

end Ledger
